import Mathlib

/-
  Verification of the pull-to-refresh web component
  (src/pull-to-refresh.js) against its specification.

  The component is a single-threaded, event-driven state machine.  We embed
  the mutable instance fields of PullToRefreshElement as a Lean structure
  PTRState, and each event handler / public method as a pure function from
  PTRState to PTRState together with the list of DOM CustomEvents it
  dispatches (in dispatch order).  The static class field
  customTranslations is passed explicitly as a parameter (it is read-only
  for every function except registerTranslations).

  Modelling conventions, each matching a construct of the source:
    - JS numbers that hold pixel coordinates and distances are embedded as
      Int (the code only adds, subtracts and compares them).
    - DOM attributes are Option values: none = attribute absent,
      some v = attribute present with value v.
    - setTimeout / clearTimeout for the 2000ms auto-complete timer is
      embedded as the Bool field timerPending, meaning a scheduled
      callback exists that has neither fired nor been cancelled
      (source field __refreshTimeoutId; the only behavioural difference,
      a stale non-null id after the callback has fired, is unobservable
      because clearTimeout on a fired id is a no-op).  The body of the
      scheduled callback is the function timerFire.
    - the rendered shadow DOM is assumed present (_container,
      _indicator, _indicatorTextEl all non-null): the visual fields of
      the indicator are embedded as indicatorOffset (the translateY
      value), indicatorActive (the active class) and indicatorDisplayText
      (the textContent of the indicator text element).  The aria-live
      toggle timer of resetIndicator is not modelled; no claim concerns it.
-/

namespace PullToRefresh

/-- A set of the three localized display strings, source interface
PullToRefreshTranslationSet: indicator, release, refreshing. -/
structure TranslationSet where
  indicator : String
  release : String
  refreshing : String
deriving DecidableEq, Repr

/-- A JS plain object mapping language codes to translation sets, embedded
as an association list (first matching key wins on lookup; the spread
operations below keep keys unique exactly as JS objects do). -/
abbrev TransTable := List (String × TranslationSet)

/-- Property lookup on a translation table object: obj[key], none when the
key is absent (undefined). -/
def lookupTable : TransTable → String → Option TranslationSet
  | [], _ => none
  | p :: rest, key => if p.1 = key then some p.2 else lookupTable rest key

/-- Modelled from the spec: the built-in translation table.  The file
translations.json is imported by src/pull-to-refresh.js but is not under
src/; per the spec the table is keyed by lowercase base language codes and
covers 16 codes.  The exact strings for en, es, fr and ja are fixed by the
repository test file; the indicator strings of the other codes are fixed
by the README table; their release and refreshing strings are unspecified
placeholders (non-empty, as all shipped strings are). -/
def defaultTranslations : TransTable :=
  [ ("en", ⟨"↓ Pull to refresh", "↻ Release to refresh", "⏳ Refreshing..."⟩),
    ("zh", ⟨"↓ 下拉刷新", "↻ 释放刷新", "⏳ 刷新中..."⟩),
    ("hi", ⟨"↓ रीफ्रेश करने के लिए खींचें", "↻ रीफ्रेश करने के लिए छोड़ें", "⏳ रीफ्रेश हो रहा है..."⟩),
    ("es", ⟨"↓ Desliza para actualizar", "↻ Suelta para actualizar", "⏳ Actualizando..."⟩),
    ("fr", ⟨"↓ Tirez pour actualiser", "↻ Relâchez pour actualiser", "⏳ Actualisation..."⟩),
    ("ar", ⟨"↓ اسحب للتحديث", "↻ حرر للتحديث", "⏳ جارٍ التحديث..."⟩),
    ("bn", ⟨"↓ রিফ্রেশ করতে টানুন", "↻ রিফ্রেশ করতে ছেড়ে দিন", "⏳ রিফ্রেশ হচ্ছে..."⟩),
    ("pt", ⟨"↓ Puxe para atualizar", "↻ Solte para atualizar", "⏳ Atualizando..."⟩),
    ("ru", ⟨"↓ Потяните для обновления", "↻ Отпустите для обновления", "⏳ Обновление..."⟩),
    ("ja", ⟨"↓ 引っ張って更新", "↻ 離して更新", "⏳ 更新中..."⟩),
    ("de", ⟨"↓ Zum Aktualisieren ziehen", "↻ Zum Aktualisieren loslassen", "⏳ Aktualisieren..."⟩),
    ("pa", ⟨"↓ ਤਾਜ਼ਾ ਕਰਨ ਲਈ ਖਿੱਚੋ", "↻ ਤਾਜ਼ਾ ਕਰਨ ਲਈ ਛੱਡੋ", "⏳ ਤਾਜ਼ਾ ਹੋ ਰਿਹਾ ਹੈ..."⟩),
    ("jv", ⟨"↓ Tarik kanggo nyegerake", "↻ Culake kanggo nyegerake", "⏳ Nyegerake..."⟩),
    ("ko", ⟨"↓ 당겨서 새로고침", "↻ 놓아서 새로고침", "⏳ 새로고침 중..."⟩),
    ("vi", ⟨"↓ Kéo để làm mới", "↻ Thả để làm mới", "⏳ Đang làm mới..."⟩),
    ("it", ⟨"↓ Trascina per aggiornare", "↻ Rilascia per aggiornare", "⏳ Aggiornamento..."⟩) ]

/-- The JS object spread merge of two tables, as in the source expressions
\x7b ...a, ...b \x7d: every key of b maps to the value from b, every key of a
that b does not mention keeps the value from a. -/
def spreadMerge (a b : TransTable) : TransTable :=
  a.filter (fun p => (lookupTable b p.1).isNone) ++ b

/-- Source static method registerTranslations: merges the incoming table
into the class-wide customTranslations object with the incoming entries
taking precedence (the source assigns \x7b ...customTranslations,
...translations \x7d). -/
def registerTranslations (custom incoming : TransTable) : TransTable :=
  spreadMerge custom incoming

/-- The JS expression lang.split(c)[0]: the longest prefix of the
string before the first separator character, the whole string when the
separator does not occur. -/
def splitHead (c : Char) (s : String) : String :=
  String.mk (s.toList.takeWhile (fun ch => ch != c))

/-- Lookup into the merged object \x7b ...defaultTranslations,
...customTranslations \x7d built by the source method __getTranslations:
the custom table takes precedence over the built-in one. -/
def mergedLookup (custom : TransTable) (key : String) : Option TranslationSet :=
  match lookupTable custom key with
  | some t => some t
  | none => lookupTable defaultTranslations key

/-- Source method __getTranslations: strips the region subtag from the
instance language with split on the dash, looks the base code up in the
merged table, and falls back to the merged entry for en.  The result is an
Option because the JS expression allTranslations[langCode] ||
allTranslations.en would be undefined were en absent from both tables; the
built-in table always carries en, which is proved below. -/
def __getTranslations (custom : TransTable) (lang : String) : Option TranslationSet :=
  match mergedLookup custom (splitHead '-' lang) with
  | some t => some t
  | none => mergedLookup custom "en"

/-- Total version of __getTranslations used by the text getters; the
default is never reached because the built-in table carries en. -/
def getTranslationsD (custom : TransTable) (lang : String) : TranslationSet :=
  (__getTranslations custom lang).getD ⟨"", "", ""⟩

/-- The value written to the threshold attribute, viewed through the two
numeric conversions the source applies to it.  An attribute value is a
string; the source classifies it by Number(value) and reads it back with
parseInt(value, 10).  intStr n embeds the canonical decimal string of the
integer n (Number and parseInt both yield n); nonNumeric embeds a string
on which both conversions yield NaN. -/
inductive ThresholdAttrVal where
  | intStr (n : Int)
  | nonNumeric
deriving DecidableEq, Repr

/-- A JS value passed to the threshold property setter, classified by the
tests the setter applies: nullish covers null, undefined and the empty
string; nonNumeric covers values with Number(value) NaN or infinite;
num n covers values with Number(value) a finite integer n (the setter
rounds, so non-integral finite inputs behave as their rounded integer). -/
inductive ThresholdInput where
  | nullish
  | nonNumeric
  | num (n : Int)
deriving DecidableEq, Repr

/-- The events the component dispatches, in the source
dispatchEvent calls: ptr:pull-start, ptr:pull-move (with the pull
distance), ptr:pull-end, ptr:refresh and ptr:refresh-complete. -/
inductive PTREvent where
  | pullStart
  | pullMove (distance : Int)
  | pullEnd
  | refresh
  | refreshComplete
deriving DecidableEq, Repr

/-- The mutable per-instance state of PullToRefreshElement. -/
structure PTRState where
  startY : Int
  currentY : Int
  isPulling : Bool
  isPullingConfirmed : Bool
  isRefreshing : Bool
  /-- Models __refreshTimeoutId: a scheduled auto-complete callback exists
  that has neither fired nor been cancelled. -/
  timerPending : Bool
  thresholdAttr : Option ThresholdAttrVal
  indicatorTextAttr : Option String
  releaseTextAttr : Option String
  refreshingTextAttr : Option String
  /-- Models __lang, the resolved language tag. -/
  lang : String
  disabled : Bool
  disableSelection : Bool
  /-- The pulling attribute set during a selection-suppressed pull. -/
  pullingAttr : Bool
  /-- The translateY offset applied to the indicator element. -/
  indicatorOffset : Int
  /-- The active class on the indicator element. -/
  indicatorActive : Bool
  /-- The textContent of the indicator text element. -/
  indicatorDisplayText : String
deriving DecidableEq, Repr

/-- Source getter indicatorHeight: fixed 50 pixels. -/
def indicatorHeight : Int := 50

/-- Source getter threshold: parseInt of the attribute, 80 when the
attribute is absent or does not parse. -/
def PTRState.threshold (s : PTRState) : Int :=
  match s.thresholdAttr with
  | some (ThresholdAttrVal.intStr n) => n
  | some ThresholdAttrVal.nonNumeric => 80
  | none => 80

/-- The JS expression a || d for a string attribute read: the attribute
value unless it is absent or the empty string (both falsy), in which case
the default. -/
def jsOr (a : Option String) (d : String) : String :=
  match a with
  | none => d
  | some s => if s = "" then d else s

/-- Source getter indicatorText: attribute override or localized value. -/
def indicatorText (custom : TransTable) (s : PTRState) : String :=
  jsOr s.indicatorTextAttr (getTranslationsD custom s.lang).indicator

/-- Source getter releaseText: attribute override or localized value. -/
def releaseText (custom : TransTable) (s : PTRState) : String :=
  jsOr s.releaseTextAttr (getTranslationsD custom s.lang).release

/-- Source getter refreshingText: attribute override or localized value. -/
def refreshingText (custom : TransTable) (s : PTRState) : String :=
  jsOr s.refreshingTextAttr (getTranslationsD custom s.lang).refreshing

/-- Source method __updateIndicatorTextForState: refreshing text while a
refresh is in flight, release text while pulling past the threshold,
indicator text otherwise. -/
def __updateIndicatorTextForState (custom : TransTable) (s : PTRState) : PTRState :=
  if s.isRefreshing then
    { s with indicatorDisplayText := refreshingText custom s }
  else if s.isPulling then
    if s.threshold < s.currentY then
      { s with indicatorDisplayText := releaseText custom s }
    else
      { s with indicatorDisplayText := indicatorText custom s }
  else
    { s with indicatorDisplayText := indicatorText custom s }

/-- Source method updateIndicatorText: skipped mid-pull unless forced or
refreshing. -/
def updateIndicatorText (custom : TransTable) (force : Bool) (s : PTRState) : PTRState :=
  if s.isPulling && !force && !s.isRefreshing then s
  else __updateIndicatorTextForState custom s

/-- Source method __clearRefreshTimeout: cancels the pending
auto-complete timer. -/
def __clearRefreshTimeout (s : PTRState) : PTRState :=
  { s with timerPending := false }

/-- Source method resetIndicator: slides the indicator offscreen, drops
the active class and recomputes the display text (the aria-live toggling
around the text update is not modelled). -/
def resetIndicator (custom : TransTable) (s : PTRState) : PTRState :=
  __updateIndicatorTextForState custom
    { s with indicatorOffset := -indicatorHeight, indicatorActive := false }

/-- Source method completeRefresh: unconditionally clears the in-flight
flag, resets the indicator, cancels the pending timer and dispatches
ptr:refresh-complete.  There is no in-flight guard in the source. -/
def completeRefresh (custom : TransTable) (s : PTRState) : PTRState × List PTREvent :=
  let s := { s with isRefreshing := false }
  let s := resetIndicator custom s
  let s := __clearRefreshTimeout s
  (s, [PTREvent.refreshComplete])

/-- Source method triggerRefresh: a no-op while a refresh is in flight;
otherwise sets the in-flight flag, updates the display, dispatches
ptr:refresh (whose detail carries a completion closure that invokes
completeRefresh) and arms the 2000ms auto-complete timer.  Listeners are
modelled as running after the handler returns, so the dispatch is the
emitted event and the token is a later call to completeRefresh. -/
def triggerRefresh (custom : TransTable) (s : PTRState) : PTRState × List PTREvent :=
  if s.isRefreshing then (s, [])
  else
    let s := { s with isRefreshing := true }
    let s := __updateIndicatorTextForState custom s
    let s := { s with indicatorActive := true }
    let s := { s with timerPending := true }
    (s, [PTREvent.refresh])

/-- The body of the auto-complete timer callback armed by triggerRefresh:
the timer fires (and is therefore no longer pending) and invokes
completeRefresh only if the refresh is still in flight. -/
def timerFire (custom : TransTable) (s : PTRState) : PTRState × List PTREvent :=
  let s := { s with timerPending := false }
  if s.isRefreshing then completeRefresh custom s
  else (s, [])

/-- Source handler handleStart for pointerdown: enters the pulling state
recording the start coordinate when the container is scrolled to the top,
no refresh is in flight and the component is not disabled. -/
def handleStart (clientY scrollTop : Int) (s : PTRState) : PTRState :=
  if scrollTop = 0 && !s.isRefreshing && !s.disabled then
    { s with isPulling := true, isPullingConfirmed := false, startY := clientY }
  else s

/-- The tail of handleMove after direction confirmation: records the live
distance and, when it is positive, moves the indicator, arms or disarms
the active class against the threshold, recomputes the display text and
dispatches ptr:pull-move carrying the distance. -/
def moveUpdate (custom : TransTable) (deltaY : Int) (s : PTRState)
    (evs : List PTREvent) : PTRState × List PTREvent :=
  let s := { s with currentY := deltaY }
  if 0 < s.currentY then
    let s := { s with
      indicatorOffset := min (s.currentY - indicatorHeight) indicatorHeight,
      indicatorActive := decide (s.threshold < s.currentY) }
    let s := __updateIndicatorTextForState custom s
    (s, evs ++ [PTREvent.pullMove deltaY])
  else (s, evs)

/-- Source handler handleMove for pointermove with the pulling flag
already checked: while unconfirmed, movements of at most 5 pixels are
ignored; a movement beyond 5 pixels upward cancels the gesture silently;
a movement beyond 5 pixels downward confirms it, sets the pulling
attribute when selection suppression is on, dispatches ptr:pull-start and
proceeds into the shared distance update. -/
def handleMoveActive (custom : TransTable) (clientY : Int) (s : PTRState) :
    PTRState × List PTREvent :=
  if s.isPullingConfirmed then
    moveUpdate custom (clientY - s.startY) s []
  else if 5 < (clientY - s.startY).natAbs then
    if clientY - s.startY < 0 then
      ({ s with isPulling := false }, [])
    else
      moveUpdate custom (clientY - s.startY)
        { s with isPullingConfirmed := true,
                 pullingAttr := (s.disableSelection || s.pullingAttr) }
        [PTREvent.pullStart]
  else (s, [])

/-- Source handler handleMove for pointermove: returns immediately when no
gesture is active. -/
def handleMove (custom : TransTable) (clientY : Int) (s : PTRState) :
    PTRState × List PTREvent :=
  if s.isPulling then handleMoveActive custom clientY s
  else (s, [])

/-- Source handler handleEnd for pointerup and pointercancel: returns
immediately when no gesture is active; otherwise leaves the pulling state,
drops the pulling attribute, dispatches ptr:pull-end, then either starts
the refresh lifecycle (distance positive and beyond the threshold) or
resets the indicator, and finally zeroes the distance. -/
def handleEnd (custom : TransTable) (s : PTRState) : PTRState × List PTREvent :=
  if s.isPulling then
    let s := { s with isPulling := false, pullingAttr := false }
    let r :=
      if 0 < s.currentY ∧ s.threshold < s.currentY then triggerRefresh custom s
      else (resetIndicator custom s, [])
    ({ r.1 with currentY := 0 }, PTREvent.pullEnd :: r.2)
  else (s, [])

/-- Runs a sequence of pointermove samples, accumulating the dispatched
events in order. -/
def runMoves (custom : TransTable) (ys : List Int) (s : PTRState) :
    PTRState × List PTREvent :=
  match ys with
  | [] => (s, [])
  | y :: rest =>
    let r := handleMove custom y s
    let r2 := runMoves custom rest r.1
    (r2.1, r.2 ++ r2.2)

/-- Iterates completeRefresh a given number of times, accumulating the
dispatched events in order: models a host invoking the completion token,
or the public completeRefresh method, repeatedly. -/
def iterCompleteRefresh (custom : TransTable) : Nat → PTRState → PTRState × List PTREvent
  | 0, s => (s, [])
  | n + 1, s =>
    let r := completeRefresh custom s
    let r2 := iterCompleteRefresh custom n r.1
    (r2.1, r.2 ++ r2.2)

/-- Removal of the threshold attribute: when the attribute is present, the
removal fires attributeChangedCallback with newValue null, whose threshold
case skips validation and forces a text update; removing an absent
attribute fires no callback. -/
def removeThresholdAttribute (custom : TransTable) (s : PTRState) : PTRState :=
  match s.thresholdAttr with
  | none => s
  | some _ => updateIndicatorText custom true { s with thresholdAttr := none }

/-- A write of the threshold attribute (setAttribute): the attribute takes
the new value, then attributeChangedCallback runs unless the value is
unchanged; its threshold case removes the attribute again when Number of
the new value is not finite or negative, and otherwise forces a text
update. -/
def writeThresholdAttribute (custom : TransTable) (v : ThresholdAttrVal)
    (s : PTRState) : PTRState :=
  if s.thresholdAttr = some v then { s with thresholdAttr := some v }
  else
    let s := { s with thresholdAttr := some v }
    match v with
    | ThresholdAttrVal.intStr n =>
      if n < 0 then removeThresholdAttribute custom s
      else updateIndicatorText custom true s
    | ThresholdAttrVal.nonNumeric => removeThresholdAttribute custom s

/-- Source setter for the threshold property: nullish values and values
whose Number conversion is not finite or negative remove the attribute;
a finite non-negative value is rounded and written to the attribute. -/
def setThresholdProp (custom : TransTable) (v : ThresholdInput) (s : PTRState) :
    PTRState :=
  match v with
  | ThresholdInput.nullish => removeThresholdAttribute custom s
  | ThresholdInput.nonNumeric => removeThresholdAttribute custom s
  | ThresholdInput.num n =>
    if n < 0 then removeThresholdAttribute custom s
    else writeThresholdAttribute custom (ThresholdAttrVal.intStr n) s

/-- The state of a freshly constructed and rendered element with no
attributes set: the constructor initial values, the indicator parked
offscreen by its stylesheet, the default language en. -/
def initState : PTRState :=
  { startY := 0, currentY := 0, isPulling := false, isPullingConfirmed := false,
    isRefreshing := false, timerPending := false, thresholdAttr := none,
    indicatorTextAttr := none, releaseTextAttr := none, refreshingTextAttr := none,
    lang := "en", disabled := false, disableSelection := false, pullingAttr := false,
    indicatorOffset := -50, indicatorActive := false,
    indicatorDisplayText := "↓ Pull to refresh" }

end PullToRefresh

namespace PullToRefresh

/-- The resolution procedure in the words of the spec, for comparison with
the source embedding __getTranslations: strip the region subtag, look the
base code up in the override table first, then in the builtin table, then
fall back to the English set (override English first, builtin English
last). -/
def specResolve (overrides builtins : TransTable) (lang : String) :
    Option TranslationSet :=
  match lookupTable overrides (splitHead '-' lang) with
  | some t => some t
  | none =>
    match lookupTable builtins (splitHead '-' lang) with
    | some t => some t
    | none =>
      match lookupTable overrides "en" with
      | some t => some t
      | none => lookupTable builtins "en"

theorem splitHead_idem (c : Char) (s : String) :
    splitHead c (splitHead c s) = splitHead c s := by
  unfold splitHead
  have h : (String.mk (s.toList.takeWhile (fun ch => ch != c))).toList
      = s.toList.takeWhile (fun ch => ch != c) := rfl
  rw [h, List.takeWhile_idem]

theorem lookupTable_en_defaults :
    lookupTable defaultTranslations "en"
      = some ⟨"↓ Pull to refresh", "↻ Release to refresh", "⏳ Refreshing..."⟩ := by
  rfl

theorem mergedLookup_en_isSome (custom : TransTable) :
    (mergedLookup custom "en").isSome = true := by
  unfold mergedLookup
  cases h : lookupTable custom "en" with
  | some t => rfl
  | none => rw [lookupTable_en_defaults]; rfl

theorem lookupTable_append (a b : TransTable) (k : String) :
    lookupTable (a ++ b) k
      = match lookupTable a k with
        | some t => some t
        | none => lookupTable b k := by
  induction a with
  | nil => simp [lookupTable]
  | cons p rest ih =>
    by_cases h : p.1 = k <;> simp [lookupTable, h, ih]

theorem lookupTable_filter_of_absent (a b : TransTable) (k : String)
    (h : lookupTable b k = none) :
    lookupTable (a.filter (fun p => (lookupTable b p.1).isNone)) k
      = lookupTable a k := by
  induction a with
  | nil => rfl
  | cons p rest ih =>
    by_cases hk : p.1 = k
    · subst hk
      simp [List.filter, h, lookupTable]
    · by_cases hb : (lookupTable b p.1).isNone
      · simp [List.filter, hb, lookupTable, hk, ih]
      · simp [List.filter, hb, lookupTable, hk, ih]

theorem lookupTable_filter_of_present (a b : TransTable) (k : String)
    (h : (lookupTable b k).isSome = true) :
    lookupTable (a.filter (fun p => (lookupTable b p.1).isNone)) k = none := by
  induction a with
  | nil => rfl
  | cons p rest ih =>
    by_cases hk : p.1 = k
    · subst hk
      have : (lookupTable b p.1).isNone = false := by
        cases hb : lookupTable b p.1 <;> simp_all
      simp [List.filter, this, ih]
    · by_cases hb : (lookupTable b p.1).isNone
      · simp [List.filter, hb, lookupTable, hk, ih]
      · simp [List.filter, hb, ih]

/-- C8: registerTranslations merges the given entries into the override
table additively: an entry of the incoming table wins for its key, every
key the incoming table does not mention keeps its previous value (so a
repeated registration makes the last write win per language code), and a
freshly registered code resolves to the registered set verbatim. -/
theorem registerTranslations_additive_merge (custom incoming : TransTable)
    (k : String) :
    (lookupTable (registerTranslations custom incoming) k
      = match lookupTable incoming k with
        | some t => some t
        | none => lookupTable custom k)
  ∧ (lookupTable incoming k = none →
      lookupTable (registerTranslations custom incoming) k = lookupTable custom k)
  ∧ ((lookupTable incoming "nl").isSome = true →
      __getTranslations (registerTranslations custom incoming) "nl"
        = lookupTable incoming "nl") := by
  have main : ∀ key : String,
      lookupTable (registerTranslations custom incoming) key
        = match lookupTable incoming key with
          | some t => some t
          | none => lookupTable custom key := by
    intro key
    unfold registerTranslations spreadMerge
    rw [lookupTable_append]
    cases h : lookupTable incoming key with
    | some t =>
      rw [lookupTable_filter_of_present custom incoming key (by simp [h])]
    | none =>
      rw [lookupTable_filter_of_absent custom incoming key h]
      cases hc : lookupTable custom key <;> simp [h]
  refine ⟨main k, ?_, ?_⟩
  · intro h
    rw [main k, h]
  · intro h
    cases hnl : lookupTable incoming "nl" with
    | none => simp [hnl] at h
    | some t =>
      have hbase : splitHead '-' "nl" = "nl" := by decide
      unfold __getTranslations mergedLookup
      rw [hbase, main "nl", hnl]

/-- C8 witness: registering nl into an empty override table and resolving
nl returns the registered set verbatim. -/
theorem registerTranslations_additive_merge_witness :
    (lookupTable
        [("nl", ⟨"↓ Trek om te vernieuwen", "↻ Loslaten om te vernieuwen",
            "⏳ Vernieuwen..."⟩)] "nl").isSome = true
  ∧ __getTranslations
      (registerTranslations []
        [("nl", ⟨"↓ Trek om te vernieuwen", "↻ Loslaten om te vernieuwen",
            "⏳ Vernieuwen..."⟩)]) "nl"
      = lookupTable
          [("nl", ⟨"↓ Trek om te vernieuwen", "↻ Loslaten om te vernieuwen",
              "⏳ Vernieuwen..."⟩)] "nl" :=
  ⟨by decide,
    (registerTranslations_additive_merge []
      [("nl", ⟨"↓ Trek om te vernieuwen", "↻ Loslaten om te vernieuwen",
          "⏳ Vernieuwen..."⟩)] "nl").2.2 (by decide)⟩

/-- C7: translation resolution is total and ordered: the result always
exists (a complete set is returned), it only depends on the base language
code (region subtags are stripped, so a regional variant resolves like its
base code), and it equals the resolution the spec describes, override
table first, then builtin table, then the English entry. -/
theorem translation_resolution_total_and_ordered (custom : TransTable)
    (lang : String) :
    ((__getTranslations custom lang).isSome = true)
  ∧ (__getTranslations custom lang
      = __getTranslations custom (splitHead '-' lang))
  ∧ (__getTranslations custom lang
      = specResolve custom defaultTranslations lang) := by
  refine ⟨?_, ?_, ?_⟩
  · unfold __getTranslations
    cases h : mergedLookup custom (splitHead '-' lang) with
    | some t => rfl
    | none => exact mergedLookup_en_isSome custom
  · unfold __getTranslations
    rw [splitHead_idem]
  · unfold __getTranslations specResolve mergedLookup
    cases h1 : lookupTable custom (splitHead '-' lang) with
    | some t => rfl
    | none =>
      cases h2 : lookupTable defaultTranslations (splitHead '-' lang) with
      | some t => rfl
      | none =>
        cases h3 : lookupTable custom "en" <;> rfl

/-- Decides that every set stored in a table has its three strings
non-empty. -/
def tableNonempty (tbl : TransTable) : Bool :=
  tbl.all fun p =>
    !(p.2.indicator == "") && !(p.2.release == "") && !(p.2.refreshing == "")

theorem tableNonempty_lookup (tbl : TransTable) (h : tableNonempty tbl = true)
    (k : String) (t : TranslationSet) (hl : lookupTable tbl k = some t) :
    t.indicator ≠ "" ∧ t.release ≠ "" ∧ t.refreshing ≠ "" := by
  induction tbl with
  | nil => simp [lookupTable] at hl
  | cons p rest ih =>
    have hall := h
    simp only [tableNonempty, List.all_cons, Bool.and_eq_true] at hall
    by_cases hk : p.1 = k
    · simp only [lookupTable, hk, if_pos rfl] at hl
      cases hl
      simp only [Bool.and_eq_true, Bool.not_eq_true', beq_eq_false_iff_ne] at hall
      exact ⟨hall.1.1.1, hall.1.1.2, hall.1.2⟩
    · simp only [lookupTable, hk, if_neg hk] at hl
      exact ih (by simpa [tableNonempty] using hall.2) hl

theorem mergedLookup_nil (key : String) :
    mergedLookup [] key = lookupTable defaultTranslations key := rfl

theorem defaults_nonempty (lang : String) :
    (getTranslationsD [] lang).indicator ≠ ""
  ∧ (getTranslationsD [] lang).release ≠ ""
  ∧ (getTranslationsD [] lang).refreshing ≠ "" := by
  have hne : tableNonempty defaultTranslations = true := by decide
  unfold getTranslationsD __getTranslations
  rw [mergedLookup_nil, mergedLookup_nil, lookupTable_en_defaults]
  cases h : lookupTable defaultTranslations (splitHead '-' lang) with
  | some t =>
    simpa using tableNonempty_lookup defaultTranslations hne _ t h
  | none => simp

/-- C10: an empty-string per-instance text override behaves exactly like
an absent override: for each of the three text getters, the getter with
the attribute set to the empty string equals the getter with the attribute
absent, and both yield the localized translation value; with no
registered overrides that value is never the empty string. -/
theorem empty_text_override_falls_back (custom : TransTable) (s : PTRState) :
    (indicatorText custom { s with indicatorTextAttr := some "" }
      = indicatorText custom { s with indicatorTextAttr := none })
  ∧ (indicatorText custom { s with indicatorTextAttr := some "" }
      = (getTranslationsD custom s.lang).indicator)
  ∧ (releaseText custom { s with releaseTextAttr := some "" }
      = releaseText custom { s with releaseTextAttr := none })
  ∧ (releaseText custom { s with releaseTextAttr := some "" }
      = (getTranslationsD custom s.lang).release)
  ∧ (refreshingText custom { s with refreshingTextAttr := some "" }
      = refreshingText custom { s with refreshingTextAttr := none })
  ∧ (refreshingText custom { s with refreshingTextAttr := some "" }
      = (getTranslationsD custom s.lang).refreshing)
  ∧ (indicatorText [] { s with indicatorTextAttr := some "" } ≠ "")
  ∧ (releaseText [] { s with releaseTextAttr := some "" } ≠ "")
  ∧ (refreshingText [] { s with refreshingTextAttr := some "" } ≠ "") := by
  refine ⟨rfl, rfl, rfl, rfl, rfl, rfl, ?_, ?_, ?_⟩
  · simpa [indicatorText, jsOr] using (defaults_nonempty s.lang).1
  · simpa [releaseText, jsOr] using (defaults_nonempty s.lang).2.1
  · simpa [refreshingText, jsOr] using (defaults_nonempty s.lang).2.2

theorem updTextForState_proj (custom : TransTable) (s : PTRState) :
    (__updateIndicatorTextForState custom s).indicatorOffset = s.indicatorOffset
  ∧ (__updateIndicatorTextForState custom s).indicatorActive = s.indicatorActive
  ∧ (__updateIndicatorTextForState custom s).currentY = s.currentY
  ∧ (__updateIndicatorTextForState custom s).isRefreshing = s.isRefreshing
  ∧ (__updateIndicatorTextForState custom s).timerPending = s.timerPending
  ∧ (__updateIndicatorTextForState custom s).thresholdAttr = s.thresholdAttr
  ∧ (__updateIndicatorTextForState custom s).isPulling = s.isPulling
  ∧ (__updateIndicatorTextForState custom s).isPullingConfirmed
      = s.isPullingConfirmed
  ∧ (__updateIndicatorTextForState custom s).startY = s.startY
  ∧ (__updateIndicatorTextForState custom s).pullingAttr = s.pullingAttr := by
  unfold __updateIndicatorTextForState
  cases hR : s.isRefreshing <;> cases hP : s.isPulling
  · simp
  · simp
    split <;> simp
  · simp
  · simp

theorem updateIndicatorText_proj (custom : TransTable) (force : Bool)
    (s : PTRState) :
    (updateIndicatorText custom force s).thresholdAttr = s.thresholdAttr := by
  unfold updateIndicatorText
  split
  · rfl
  · exact (updTextForState_proj custom s).2.2.2.2.2.1

theorem completeRefresh_events (custom : TransTable) (s : PTRState) :
    (completeRefresh custom s).2 = [PTREvent.refreshComplete] := rfl

theorem completeRefresh_state (custom : TransTable) (s : PTRState) :
    (completeRefresh custom s).1.isRefreshing = false
  ∧ (completeRefresh custom s).1.timerPending = false := by
  unfold completeRefresh resetIndicator __clearRefreshTimeout
  refine ⟨?_, rfl⟩
  simpa using (updTextForState_proj custom
    { s with isRefreshing := false,
             indicatorOffset := -indicatorHeight,
             indicatorActive := false }).2.2.2.1

theorem iterCompleteRefresh_events (custom : TransTable) (n : Nat)
    (s : PTRState) :
    (iterCompleteRefresh custom n s).2
      = List.replicate n PTREvent.refreshComplete := by
  induction n generalizing s with
  | zero => rfl
  | succ m ih =>
    simp [iterCompleteRefresh, completeRefresh_events, ih,
      List.replicate_succ]

/-- C1 counterexample: after a single trigger, the first completion emits
ptr:refresh-complete, and a second completion, invoked while no refresh is
in flight any more, emits ptr:refresh-complete again, so two completion
calls after one trigger produce two completion events, not one, and the
second call is not silent. -/
theorem double_completion_emits_twice :
    (triggerRefresh [] initState).2 = [PTREvent.refresh]
  ∧ (completeRefresh [] (triggerRefresh [] initState).1).1.isRefreshing = false
  ∧ (completeRefresh [] (triggerRefresh [] initState).1).2
      = [PTREvent.refreshComplete]
  ∧ (completeRefresh []
        (completeRefresh [] (triggerRefresh [] initState).1).1).2
      = [PTREvent.refreshComplete] := by
  refine ⟨rfl, ?_, rfl, rfl⟩
  exact (completeRefresh_state [] (triggerRefresh [] initState).1).1

/-- C1 as amended: completeRefresh is unguarded, so after a single
trigger, N completion calls (token, public method, or calls after the
auto-complete timer already fired) emit exactly N ptr:refresh-complete
events, one per call; the first call does clear the in-flight flag and
cancel the pending timer, and no call raises an error (the function is
total). -/
theorem completion_emits_once_per_call (custom : TransTable) (s : PTRState)
    (n : Nat) (h : s.isRefreshing = false) :
    (triggerRefresh custom s).2 = [PTREvent.refresh]
  ∧ (iterCompleteRefresh custom n (triggerRefresh custom s).1).2
      = List.replicate n PTREvent.refreshComplete
  ∧ (completeRefresh custom (triggerRefresh custom s).1).1.isRefreshing = false
  ∧ (completeRefresh custom (triggerRefresh custom s).1).1.timerPending
      = false := by
  refine ⟨?_, iterCompleteRefresh_events custom n _,
    (completeRefresh_state custom _).1, (completeRefresh_state custom _).2⟩
  unfold triggerRefresh
  rw [h]
  simp

/-- C1 witness: the amended statement at the freshly rendered state with
two completion calls. -/
theorem completion_emits_once_per_call_witness :
    initState.isRefreshing = false
  ∧ ((triggerRefresh [] initState).2 = [PTREvent.refresh]
    ∧ (iterCompleteRefresh [] 2 (triggerRefresh [] initState).1).2
        = List.replicate 2 PTREvent.refreshComplete
    ∧ (completeRefresh [] (triggerRefresh [] initState).1).1.isRefreshing
        = false
    ∧ (completeRefresh [] (triggerRefresh [] initState).1).1.timerPending
        = false) :=
  ⟨rfl, completion_emits_once_per_call [] initState 2 rfl⟩

theorem triggerRefresh_inflight_noop (custom : TransTable) (s : PTRState)
    (h : s.isRefreshing = true) : triggerRefresh custom s = (s, []) := by
  unfold triggerRefresh
  rw [h]
  simp

theorem triggerRefresh_proj (custom : TransTable) (s : PTRState)
    (h : s.isRefreshing = false) :
    (triggerRefresh custom s).2 = [PTREvent.refresh]
  ∧ (triggerRefresh custom s).1.isRefreshing = true
  ∧ (triggerRefresh custom s).1.timerPending = true := by
  unfold triggerRefresh
  rw [h]
  refine ⟨by simp, ?_, by simp⟩
  simpa using
    (updTextForState_proj custom { s with isRefreshing := true }).2.2.2.1

/-- C3: triggering while a refresh is already in flight is a silent no-op:
the first trigger emits exactly one ptr:refresh, sets the in-flight flag
and arms the timer, and a second trigger before any completion returns the
state of the first call unchanged and emits nothing. -/
theorem second_trigger_is_noop (custom : TransTable) (s : PTRState)
    (h : s.isRefreshing = false) :
    (triggerRefresh custom s).2 = [PTREvent.refresh]
  ∧ (triggerRefresh custom s).1.isRefreshing = true
  ∧ (triggerRefresh custom s).1.timerPending = true
  ∧ triggerRefresh custom (triggerRefresh custom s).1
      = ((triggerRefresh custom s).1, []) := by
  obtain ⟨h1, h2, h3⟩ := triggerRefresh_proj custom s h
  exact ⟨h1, h2, h3, triggerRefresh_inflight_noop custom _ h2⟩

/-- C3 witness: the double-trigger facts at the freshly rendered state. -/
theorem second_trigger_is_noop_witness :
    initState.isRefreshing = false
  ∧ ((triggerRefresh [] initState).2 = [PTREvent.refresh]
    ∧ (triggerRefresh [] initState).1.isRefreshing = true
    ∧ (triggerRefresh [] initState).1.timerPending = true
    ∧ triggerRefresh [] (triggerRefresh [] initState).1
        = ((triggerRefresh [] initState).1, [])) :=
  ⟨rfl, second_trigger_is_noop [] initState rfl⟩

/-- C4: when the host never invokes the completion token, the armed
auto-complete timer fires exactly one ptr:refresh-complete and ends the
session; the timer body completes only when a refresh is still in flight
(it emits nothing otherwise); and an earlier completion cancels the
pending timer, after which a firing timer emits nothing, so no session
completes twice through the timer. -/
theorem auto_complete_exactly_once (custom : TransTable) (s : PTRState)
    (h : s.isRefreshing = false) :
    (triggerRefresh custom s).1.timerPending = true
  ∧ (timerFire custom (triggerRefresh custom s).1).2
      = [PTREvent.refreshComplete]
  ∧ (timerFire custom (triggerRefresh custom s).1).1.isRefreshing = false
  ∧ (timerFire custom (triggerRefresh custom s).1).1.timerPending = false
  ∧ (timerFire custom s).2 = []
  ∧ (completeRefresh custom (triggerRefresh custom s).1).1.timerPending = false
  ∧ (timerFire custom
        (completeRefresh custom (triggerRefresh custom s).1).1).2 = [] := by
  have hOn : (triggerRefresh custom s).1.isRefreshing = true :=
    (triggerRefresh_proj custom s h).2.1
  have hArm : (triggerRefresh custom s).1.timerPending = true :=
    (triggerRefresh_proj custom s h).2.2
  have hfire :
      timerFire custom (triggerRefresh custom s).1
        = completeRefresh custom
            { (triggerRefresh custom s).1 with timerPending := false } := by
    unfold timerFire
    simp [hOn]
  refine ⟨hArm, ?_, ?_, ?_, ?_, (completeRefresh_state custom _).2, ?_⟩
  · rw [hfire]
    exact completeRefresh_events custom _
  · rw [hfire]
    exact (completeRefresh_state custom _).1
  · rw [hfire]
    exact (completeRefresh_state custom _).2
  · unfold timerFire
    simp [h]
  · unfold timerFire
    simp [(completeRefresh_state custom (triggerRefresh custom s).1).1]

/-- C4 witness: the auto-complete facts at the freshly rendered state. -/
theorem auto_complete_exactly_once_witness :
    initState.isRefreshing = false
  ∧ ((triggerRefresh [] initState).1.timerPending = true
    ∧ (timerFire [] (triggerRefresh [] initState).1).2
        = [PTREvent.refreshComplete]
    ∧ (timerFire [] (triggerRefresh [] initState).1).1.isRefreshing = false
    ∧ (timerFire [] (triggerRefresh [] initState).1).1.timerPending = false
    ∧ (timerFire [] initState).2 = []
    ∧ (completeRefresh [] (triggerRefresh [] initState).1).1.timerPending
        = false
    ∧ (timerFire []
          (completeRefresh [] (triggerRefresh [] initState).1).1).2 = []) :=
  ⟨rfl, auto_complete_exactly_once [] initState rfl⟩

theorem resetIndicator_proj (custom : TransTable) (s : PTRState) :
    (resetIndicator custom s).indicatorOffset = -50
  ∧ (resetIndicator custom s).indicatorActive = false
  ∧ (resetIndicator custom s).isPulling = s.isPulling
  ∧ (resetIndicator custom s).currentY = s.currentY := by
  unfold resetIndicator
  have h := updTextForState_proj custom
    { s with indicatorOffset := -indicatorHeight, indicatorActive := false }
  refine ⟨?_, ?_, ?_, ?_⟩
  · rw [h.1]
    rfl
  · rw [h.2.1]
  · rw [h.2.2.2.2.2.2.1]
  · rw [h.2.2.1]

theorem handleEnd_eq (custom : TransTable) (s : PTRState)
    (hp : s.isPulling = true) :
    handleEnd custom s
      = if 0 < s.currentY ∧ s.threshold < s.currentY then
          ({ (triggerRefresh custom
                { s with isPulling := false, pullingAttr := false }).1 with
              currentY := 0 },
           PTREvent.pullEnd
             :: (triggerRefresh custom
                  { s with isPulling := false, pullingAttr := false }).2)
        else
          ({ resetIndicator custom
              { s with isPulling := false, pullingAttr := false } with
              currentY := 0 },
           [PTREvent.pullEnd]) := by
  have hth : PTRState.threshold
      { s with isPulling := false, pullingAttr := false } = s.threshold := rfl
  unfold handleEnd
  rw [hp]
  by_cases hc : 0 < s.currentY ∧ s.threshold < s.currentY <;> simp [hth, hc]

/-- C2: at gesture end with a pull in progress, the refresh lifecycle is
started (ptr:refresh is emitted) exactly when the final distance D is
positive and strictly exceeds the threshold T; at D equal to T no refresh
triggers; when no refresh triggers the indicator is reset (parked at
offset -50 with the active class dropped); ptr:pull-end always leads the
dispatched events and the distance is zeroed afterwards regardless of the
outcome. -/
theorem pull_release_triggers_iff_past_threshold (custom : TransTable)
    (s : PTRState) (hp : s.isPulling = true) (hr : s.isRefreshing = false)
    (_ht : 0 ≤ s.threshold) :
    (PTREvent.refresh ∈ (handleEnd custom s).2
      ↔ (0 < s.currentY ∧ s.threshold < s.currentY))
  ∧ (handleEnd custom s).2.head? = some PTREvent.pullEnd
  ∧ (¬ (0 < s.currentY ∧ s.threshold < s.currentY) →
      (handleEnd custom s).1.indicatorOffset = -50
      ∧ (handleEnd custom s).1.indicatorActive = false)
  ∧ (s.currentY = s.threshold → PTREvent.refresh ∉ (handleEnd custom s).2)
  ∧ (handleEnd custom s).1.currentY = 0 := by
  rw [handleEnd_eq custom s hp]
  by_cases hc : 0 < s.currentY ∧ s.threshold < s.currentY
  · have hr2 : ({ s with isPulling := false, pullingAttr := false } :
        PTRState).isRefreshing = false := hr
    have hev := (triggerRefresh_proj custom
      { s with isPulling := false, pullingAttr := false } hr2).1
    rw [if_pos hc]
    refine ⟨?_, ?_, fun hnc => absurd hc hnc, ?_, rfl⟩
    · simp [hev, hc]
    · simp
    · intro heq
      exact absurd hc (by omega)
  · rw [if_neg hc]
    refine ⟨?_, ?_, ?_, ?_, rfl⟩
    · simp [hc]
    · simp
    · intro _
      constructor
      · simpa using (resetIndicator_proj custom
          { s with isPulling := false, pullingAttr := false }).1
      · simpa using (resetIndicator_proj custom
          { s with isPulling := false, pullingAttr := false }).2.1
    · intro _
      simp

/-- C2 witness: a pull of 100 pixels against the default threshold 80. -/
theorem pull_release_triggers_iff_past_threshold_witness :
    ({ initState with isPulling := true, currentY := 100 } :
        PTRState).isPulling = true
  ∧ ({ initState with isPulling := true, currentY := 100 } :
        PTRState).isRefreshing = false
  ∧ 0 ≤ ({ initState with isPulling := true, currentY := 100 } :
        PTRState).threshold
  ∧ ((PTREvent.refresh
      ∈ (handleEnd [] { initState with isPulling := true, currentY := 100 }).2
      ↔ (0 < ({ initState with isPulling := true, currentY := 100 } :
            PTRState).currentY
        ∧ ({ initState with isPulling := true, currentY := 100 } :
            PTRState).threshold
          < ({ initState with isPulling := true, currentY := 100 } :
            PTRState).currentY))
    ∧ (handleEnd [] { initState with isPulling := true, currentY := 100 }).2.head?
        = some PTREvent.pullEnd
    ∧ (¬ (0 < ({ initState with isPulling := true, currentY := 100 } :
            PTRState).currentY
        ∧ ({ initState with isPulling := true, currentY := 100 } :
            PTRState).threshold
          < ({ initState with isPulling := true, currentY := 100 } :
            PTRState).currentY) →
        (handleEnd [] { initState with isPulling := true, currentY := 100 }).1.indicatorOffset
          = -50
        ∧ (handleEnd [] { initState with isPulling := true, currentY := 100 }).1.indicatorActive
          = false)
    ∧ (({ initState with isPulling := true, currentY := 100 } :
          PTRState).currentY
        = ({ initState with isPulling := true, currentY := 100 } :
          PTRState).threshold →
        PTREvent.refresh
          ∉ (handleEnd [] { initState with isPulling := true, currentY := 100 }).2)
    ∧ (handleEnd [] { initState with isPulling := true, currentY := 100 }).1.currentY
        = 0) :=
  ⟨rfl, rfl, by decide,
    pull_release_triggers_iff_past_threshold []
      { initState with isPulling := true, currentY := 100 } rfl rfl (by decide)⟩

theorem removeThresholdAttribute_default (custom : TransTable) (s : PTRState) :
    (removeThresholdAttribute custom s).threshold = 80 := by
  unfold removeThresholdAttribute
  cases h : s.thresholdAttr with
  | none =>
    unfold PTRState.threshold
    rw [h]
  | some v =>
    unfold PTRState.threshold
    rw [updateIndicatorText_proj]

/-- C5 counterexample: with the threshold attribute previously holding
120, writing the invalid value -5 through the property setter removes the
attribute, so the threshold getter afterwards yields the default 80, not
the previously held 120. -/
theorem invalid_threshold_loses_prior_value :
    PTRState.threshold
      { initState with thresholdAttr := some (ThresholdAttrVal.intStr 120) }
      = 120
  ∧ PTRState.threshold
      (setThresholdProp [] (ThresholdInput.num (-5))
        { initState with thresholdAttr := some (ThresholdAttrVal.intStr 120) })
      = 80 := by
  constructor
  · rfl
  · rfl

/-- C5 as amended: every invalid threshold write (negative number through
the setter, non-numeric or negative value through the attribute path,
nullish through the setter) removes the attribute, so the threshold read
afterwards is the default 80; the invalid value itself is never
observable, no error propagates (the functions are total), and the prior
value is retained only when it was the default, that is when no threshold
attribute was set. -/
theorem invalid_threshold_rejected_to_default (custom : TransTable)
    (s : PTRState) (n : Int) (hn : n < 0)
    (hprev : s.thresholdAttr ≠ some (ThresholdAttrVal.intStr n)) :
    (setThresholdProp custom (ThresholdInput.num n) s).threshold = 80
  ∧ (setThresholdProp custom ThresholdInput.nonNumeric s).threshold = 80
  ∧ (setThresholdProp custom ThresholdInput.nullish s).threshold = 80
  ∧ (writeThresholdAttribute custom (ThresholdAttrVal.intStr n) s).threshold = 80
  ∧ (writeThresholdAttribute custom ThresholdAttrVal.nonNumeric s).threshold = 80
  ∧ (setThresholdProp custom (ThresholdInput.num n) s).threshold ≠ n
  ∧ (s.thresholdAttr = none →
      (setThresholdProp custom (ThresholdInput.num n) s).threshold
        = s.threshold) := by
  have hremove := removeThresholdAttribute_default custom s
  have hnum : setThresholdProp custom (ThresholdInput.num n) s
      = removeThresholdAttribute custom s := by
    simp only [setThresholdProp]
    rw [if_pos hn]
  have hwrite :
      (writeThresholdAttribute custom (ThresholdAttrVal.intStr n) s).threshold
        = 80 := by
    simp only [writeThresholdAttribute]
    rw [if_neg hprev, if_pos hn]
    exact removeThresholdAttribute_default custom _
  have hwriteNaN :
      (writeThresholdAttribute custom ThresholdAttrVal.nonNumeric s).threshold
        = 80 := by
    simp only [writeThresholdAttribute]
    by_cases h : s.thresholdAttr = some ThresholdAttrVal.nonNumeric
    · rw [if_pos h]
      rfl
    · rw [if_neg h]
      exact removeThresholdAttribute_default custom _
  refine ⟨by rw [hnum]; exact hremove, hremove, hremove, hwrite, hwriteNaN,
    ?_, ?_⟩
  · rw [hnum, hremove]
    omega
  · intro hnone
    rw [hnum, hremove]
    unfold PTRState.threshold
    rw [hnone]

/-- C5 witness for the amended statement: rejecting -5 and non-numeric
input at the freshly rendered state, which has no threshold attribute. -/
theorem invalid_threshold_rejected_to_default_witness :
    (-5 : Int) < 0
  ∧ initState.thresholdAttr ≠ some (ThresholdAttrVal.intStr (-5))
  ∧ ((setThresholdProp [] (ThresholdInput.num (-5)) initState).threshold = 80
    ∧ (setThresholdProp [] ThresholdInput.nonNumeric initState).threshold = 80
    ∧ (setThresholdProp [] ThresholdInput.nullish initState).threshold = 80
    ∧ (writeThresholdAttribute [] (ThresholdAttrVal.intStr (-5))
        initState).threshold = 80
    ∧ (writeThresholdAttribute [] ThresholdAttrVal.nonNumeric
        initState).threshold = 80
    ∧ (setThresholdProp [] (ThresholdInput.num (-5)) initState).threshold ≠ -5
    ∧ (initState.thresholdAttr = none →
        (setThresholdProp [] (ThresholdInput.num (-5)) initState).threshold
          = initState.threshold)) :=
  ⟨by decide, by decide,
    invalid_threshold_rejected_to_default [] initState (-5) (by decide)
      (by decide)⟩

theorem handleMove_notPulling (custom : TransTable) (y : Int) (s : PTRState)
    (h : s.isPulling = false) : handleMove custom y s = (s, []) := by
  unfold handleMove
  rw [h]
  simp

theorem runMoves_notPulling (custom : TransTable) (ys : List Int)
    (s : PTRState) (h : s.isPulling = false) :
    runMoves custom ys s = (s, []) := by
  induction ys with
  | nil => rfl
  | cons y rest ih => simp [runMoves, handleMove_notPulling custom y s h, ih]

theorem handleEnd_notPulling (custom : TransTable) (s : PTRState)
    (h : s.isPulling = false) : handleEnd custom s = (s, []) := by
  unfold handleEnd
  rw [h]
  simp

theorem handleMove_deadzone (custom : TransTable) (y : Int) (s : PTRState)
    (hp : s.isPulling = true) (hc : s.isPullingConfirmed = false)
    (hy : (y - s.startY).natAbs ≤ 5) :
    handleMove custom y s = (s, []) := by
  unfold handleMove handleMoveActive
  rw [hp, hc]
  have h5 : ¬ 5 < (y - s.startY).natAbs := by omega
  simp [h5]

theorem runMoves_deadzone (custom : TransTable) (ys : List Int) (s : PTRState)
    (hp : s.isPulling = true) (hc : s.isPullingConfirmed = false)
    (hy : ∀ y ∈ ys, (y - s.startY).natAbs ≤ 5) :
    runMoves custom ys s = (s, []) := by
  induction ys with
  | nil => rfl
  | cons y rest ih =>
    have h1 := handleMove_deadzone custom y s hp hc (hy y (by simp))
    have h2 := ih (fun z hz => hy z (by simp [hz]))
    simp [runMoves, h1, h2]

theorem handleMove_upward_cancel (custom : TransTable) (y : Int)
    (s : PTRState) (hp : s.isPulling = true)
    (hc : s.isPullingConfirmed = false) (hup : y - s.startY < -5) :
    handleMove custom y s = ({ s with isPulling := false }, []) := by
  unfold handleMove handleMoveActive
  rw [hp, hc]
  have h5 : 5 < (y - s.startY).natAbs := by omega
  have hneg : y - s.startY < 0 := by omega
  simp [h5, hneg]

/-- C6: starting from a qualifying pointer-down (pulling, direction not
yet confirmed), a sequence of moves all within the 5 pixel dead zone
leaves the state unchanged and fires nothing, in particular no
ptr:pull-start; if the first move beyond 5 pixels is upward, the gesture
is cancelled silently, and from then on neither further moves nor the
pointer-up fire any event at all for the gesture. -/
theorem deadzone_and_upward_cancel_silent (custom : TransTable)
    (s : PTRState) (ys ms : List Int) (yUp : Int)
    (hp : s.isPulling = true) (hc : s.isPullingConfirmed = false)
    (hy : ∀ y ∈ ys, (y - s.startY).natAbs ≤ 5)
    (hup : yUp - s.startY < -5) :
    runMoves custom ys s = (s, [])
  ∧ handleMove custom yUp (runMoves custom ys s).1
      = ({ s with isPulling := false }, [])
  ∧ runMoves custom ms { s with isPulling := false }
      = ({ s with isPulling := false }, [])
  ∧ handleEnd custom { s with isPulling := false }
      = ({ s with isPulling := false }, []) := by
  have h1 := runMoves_deadzone custom ys s hp hc hy
  refine ⟨h1, ?_, ?_, ?_⟩
  · rw [h1]
    exact handleMove_upward_cancel custom yUp s hp hc hup
  · exact runMoves_notPulling custom ms _ rfl
  · exact handleEnd_notPulling custom _ rfl

/-- C6 witness: dead-zone moves of 3 and -4 pixels, an upward move to
-10, a later move, and the pointer-up, from a fresh pointer-down at 0. -/
theorem deadzone_and_upward_cancel_silent_witness :
    ({ initState with isPulling := true } : PTRState).isPulling = true
  ∧ ({ initState with isPulling := true } : PTRState).isPullingConfirmed
      = false
  ∧ (∀ y ∈ [(3 : Int), -4],
      (y - ({ initState with isPulling := true } : PTRState).startY).natAbs ≤ 5)
  ∧ (-10 : Int) - ({ initState with isPulling := true } : PTRState).startY < -5
  ∧ (runMoves [] [(3 : Int), -4] { initState with isPulling := true }
      = ({ initState with isPulling := true }, [])
    ∧ handleMove [] (-10)
        (runMoves [] [(3 : Int), -4] { initState with isPulling := true }).1
      = ({ { initState with isPulling := true } with isPulling := false }, [])
    ∧ runMoves [] [(30 : Int)]
        { { initState with isPulling := true } with isPulling := false }
      = ({ { initState with isPulling := true } with isPulling := false }, [])
    ∧ handleEnd []
        { { initState with isPulling := true } with isPulling := false }
      = ({ { initState with isPulling := true } with isPulling := false }, [])) :=
  ⟨rfl, rfl, by decide, by decide,
    deadzone_and_upward_cancel_silent [] { initState with isPulling := true }
      [(3 : Int), -4] [(30 : Int)] (-10) rfl rfl (by decide) (by decide)⟩

/-- C9: a gesture that qualifies at pointer-down (container at the top, no
refresh in flight, not disabled, distance zeroed by the previous gesture)
and is released before any move leaves the 5 pixel dead zone emits no
event during the moves, then emits exactly ptr:pull-end at pointer-up,
with no ptr:pull-start and no ptr:refresh anywhere in the gesture, and the
indicator is reset, so a pull-end is not always preceded by a matching
pull-start. -/
theorem pullEnd_without_pullStart (custom : TransTable) (s : PTRState)
    (y0 : Int) (ys : List Int)
    (hr : s.isRefreshing = false) (hd : s.disabled = false)
    (h0 : s.currentY = 0)
    (hy : ∀ y ∈ ys, (y - y0).natAbs ≤ 5) :
    (runMoves custom ys (handleStart y0 0 s)).2 = []
  ∧ (handleEnd custom (runMoves custom ys (handleStart y0 0 s)).1).2
      = [PTREvent.pullEnd]
  ∧ PTREvent.pullStart
      ∉ (runMoves custom ys (handleStart y0 0 s)).2
        ++ (handleEnd custom (runMoves custom ys (handleStart y0 0 s)).1).2
  ∧ PTREvent.refresh
      ∉ (handleEnd custom (runMoves custom ys (handleStart y0 0 s)).1).2
  ∧ (handleEnd custom
        (runMoves custom ys (handleStart y0 0 s)).1).1.indicatorOffset = -50
  ∧ (handleEnd custom
        (runMoves custom ys (handleStart y0 0 s)).1).1.indicatorActive = false
  ∧ (handleEnd custom
        (runMoves custom ys (handleStart y0 0 s)).1).1.isPulling = false := by
  have hs1 : handleStart y0 0 s
      = { s with
          isPulling := true, isPullingConfirmed := false, startY := y0 } := by
    unfold handleStart
    rw [hr, hd]
    simp
  have hrun : runMoves custom ys (handleStart y0 0 s)
      = (handleStart y0 0 s, []) := by
    rw [hs1]
    exact runMoves_deadzone custom ys _ rfl rfl
      (fun y hymem => by simpa using hy y hymem)
  have hpull : (handleStart y0 0 s).isPulling = true := by
    rw [hs1]
  have hcur : (handleStart y0 0 s).currentY = 0 := by
    rw [hs1]
    exact h0
  have hcond : ¬ (0 < (handleStart y0 0 s).currentY
      ∧ (handleStart y0 0 s).threshold < (handleStart y0 0 s).currentY) := by
    rw [hcur]
    intro hcon
    exact absurd hcon.1 (by omega)
  have hend := handleEnd_eq custom (handleStart y0 0 s) hpull
  rw [if_neg hcond] at hend
  have hreset := resetIndicator_proj custom
    { handleStart y0 0 s with isPulling := false, pullingAttr := false }
  refine ⟨by rw [hrun], ?_, ?_, ?_, ?_, ?_, ?_⟩
  · rw [hrun, hend]
  · rw [hrun, hend]
    simp
  · rw [hrun, hend]
    simp
  · rw [hrun, hend]
    simpa using hreset.1
  · rw [hrun, hend]
    simpa using hreset.2.1
  · rw [hrun, hend]
    simpa using hreset.2.2.1

/-- C9 witness: pointer-down at 0 on the fresh state, dead-zone moves of 2
and -3 pixels, then release. -/
theorem pullEnd_without_pullStart_witness :
    initState.isRefreshing = false
  ∧ initState.disabled = false
  ∧ initState.currentY = 0
  ∧ (∀ y ∈ [(2 : Int), -3], (y - (0 : Int)).natAbs ≤ 5)
  ∧ ((runMoves [] [(2 : Int), -3] (handleStart 0 0 initState)).2 = []
    ∧ (handleEnd []
        (runMoves [] [(2 : Int), -3] (handleStart 0 0 initState)).1).2
        = [PTREvent.pullEnd]
    ∧ PTREvent.pullStart
        ∉ (runMoves [] [(2 : Int), -3] (handleStart 0 0 initState)).2
          ++ (handleEnd []
              (runMoves [] [(2 : Int), -3] (handleStart 0 0 initState)).1).2
    ∧ PTREvent.refresh
        ∉ (handleEnd []
            (runMoves [] [(2 : Int), -3] (handleStart 0 0 initState)).1).2
    ∧ (handleEnd []
        (runMoves [] [(2 : Int), -3]
          (handleStart 0 0 initState)).1).1.indicatorOffset = -50
    ∧ (handleEnd []
        (runMoves [] [(2 : Int), -3]
          (handleStart 0 0 initState)).1).1.indicatorActive = false
    ∧ (handleEnd []
        (runMoves [] [(2 : Int), -3]
          (handleStart 0 0 initState)).1).1.isPulling = false) :=
  ⟨rfl, rfl, rfl, by decide,
    pullEnd_without_pullStart [] initState 0 [(2 : Int), -3] rfl rfl rfl
      (by decide)⟩
